import Mathlib

/-!
Verification development for the Dahua camera integration coordinator
(`custom_components/dahua/__init__.py`).  The coordinator's event parsing,
event-code translation, dispatch / timestamp tracking, capability-discovery
model resolution and accessor functions are shallow-embedded below.  Python
dictionaries become insertion-ordered association lists, Python exceptions
become an explicit `Except` error monad, and the `time.time()` clock becomes
an explicit `now : Int` argument.
-/

set_option maxRecDepth 10000

/-- Python runtime values as they occur in event payloads.  Float payload
values are carried as their decimal lexeme: the coordinator never computes
with them (the only numeric comparison on the wire, `State == 1`, arrives
as a JSON integer or boolean). -/
inductive PyVal where
  | vnull
  | vbool (b : Bool)
  | vint (n : Int)
  | vfloat (lexeme : String)
  | vstr (s : String)
  | vlist (items : List PyVal)
  | vdict (entries : List (String × PyVal))

/-- Python exceptions raised by the embedded code paths. -/
inductive PyErr where
  | valueError (msg : String)
  | attributeError (msg : String)
  | keyError (key : String)
deriving DecidableEq

/-- `d[k] = v` on an insertion-ordered Python dict: overwrite in place,
append new keys at the end. -/
def dictSet {α : Type} : List (String × α) → String → α → List (String × α)
  | [], k, v => [(k, v)]
  | (k0, v0) :: rest, k, v =>
    if k0 = k then (k, v) :: rest else (k0, v0) :: dictSet rest k v

/-- `d.get(k)` on a Python dict (`none` models Python `None` / a missing key). -/
def dictGet {α : Type} : List (String × α) → String → Option α
  | [], _ => none
  | (k0, v0) :: rest, k => if k0 = k then some v0 else dictGet rest k

/-- Python `==` between a value and a string literal: true only for the
equal `str`. -/
def isStrEq (v : PyVal) (s : String) : Bool :=
  match v with
  | .vstr t => t = s
  | _ => false

/-- Python `==` between a value and an int literal.  `True == 1` and
`False == 0` hold in Python, so booleans compare through their int value. -/
def pyEqInt (v : PyVal) (n : Int) : Bool :=
  match v with
  | .vint m => m = n
  | .vbool b => (if b then (1 : Int) else 0) = n
  | _ => false

/-- `v.get(key, default)` — succeeds on dicts, raises `AttributeError` on
every other value, exactly as Python does. -/
def pyGetD (v : PyVal) (key : String) (dflt : PyVal) : Except PyErr PyVal :=
  match v with
  | .vdict entries => .ok ((dictGet entries key).getD dflt)
  | _ => .error (.attributeError "get")

/-- ASCII lower-casing of one character (`str.lower` on the model strings
at hand is ASCII). -/
def lowChar (c : Char) : Char :=
  if 'A' ≤ c ∧ c ≤ 'Z' then Char.ofNat (c.toNat + 32) else c

/-- ASCII upper-casing of one character. -/
def upChar (c : Char) : Char :=
  if 'a' ≤ c ∧ c ≤ 'z' then Char.ofNat (c.toNat - 32) else c

/-- `s.lower()` for strings. -/
def pyLowerStr (s : String) : String := String.mk (s.toList.map lowChar)

/-- `s.upper()` for strings. -/
def pyUpperStr (s : String) : String := String.mk (s.toList.map upChar)

/-- `v.lower()` — succeeds on strings, raises `AttributeError` otherwise. -/
def pyLower (v : PyVal) : Except PyErr String :=
  match v with
  | .vstr s => .ok (pyLowerStr s)
  | _ => .error (.attributeError "lower")

/-- `s.startswith(pre)`. -/
def pyStartsWith (s pre : String) : Bool := pre.toList.isPrefixOf s.toList

/-- Helper for Python's substring test: does `needle` occur in `hay`? -/
def subSearch (needle : List Char) : List Char → Bool
  | [] => needle.isEmpty
  | c :: t => needle.isPrefixOf (c :: t) || subSearch needle t

/-- Python `sub in s` substring containment. -/
def strContains (s sub : String) : Bool := subSearch sub.toList s.toList

/-- `s.split(sep)` for a one-character separator, with Python semantics
(`"".split(";") = [""]`, empty chunks kept). -/
def splitChar (sep : Char) : List Char → List (List Char)
  | [] => [[]]
  | c :: rest =>
    if c = sep then [] :: splitChar sep rest
    else
      match splitChar sep rest with
      | [] => [[c]]
      | h :: t => (c :: h) :: t

/-- `s.split("\r\n")`, the two-character separator used by the event stream. -/
def splitCRLF : List Char → List (List Char)
  | [] => [[]]
  | '\r' :: '\n' :: rest => [] :: splitCRLF rest
  | c :: rest =>
    match splitCRLF rest with
    | [] => [[c]]
    | h :: t => (c :: h) :: t

/-- String-valued wrapper for `splitChar`. -/
def pySplitOnChar (sep : Char) (s : String) : List String :=
  (splitChar sep s.toList).map String.mk

/-- String-valued wrapper for `splitCRLF`. -/
def pySplitCRLF (s : String) : List String :=
  (splitCRLF s.toList).map String.mk

/-- Whitespace stripped by Python's `int(...)`. -/
def isPySpace (c : Char) : Bool :=
  c = ' ' ∨ c = '\t' ∨ c = '\n' ∨ c = '\r' ∨ c = '\x0b' ∨ c = '\x0c'

/-- Strip leading and trailing whitespace. -/
def trimWs (l : List Char) : List Char :=
  ((l.dropWhile isPySpace).reverse.dropWhile isPySpace).reverse

/-- Accumulate decimal digits; `none` as soon as a non-digit appears. -/
def digitsToNatAux : List Char → Nat → Option Nat
  | [], acc => some acc
  | c :: r, acc =>
    if c.isDigit then digitsToNatAux r (acc * 10 + (c.toNat - 48)) else none

/-- Python `int(s)` on a decimal string: strips whitespace, allows one
leading sign, otherwise requires a nonempty digit run.  Returns `none`
where Python raises `ValueError`. -/
def pyIntParse (s : String) : Option Int :=
  match trimWs s.toList with
  | [] => none
  | '-' :: rest =>
    if rest.isEmpty then none
    else (digitsToNatAux rest 0).map (fun n => -(n : Int))
  | '+' :: rest =>
    if rest.isEmpty then none
    else (digitsToNatAux rest 0).map (fun n => (n : Int))
  | rest => (digitsToNatAux rest 0).map (fun n => (n : Int))

/-- The opening curly brace character. -/
def lbrace : Char := Char.ofNat 123

/-- The closing curly brace character. -/
def rbrace : Char := Char.ofNat 125

/-- Skip JSON whitespace. -/
def skipWs : List Char → List Char
  | [] => []
  | c :: rest =>
    if c = ' ' ∨ c = '\t' ∨ c = '\n' ∨ c = '\r' then skipWs rest else c :: rest

/-- Hexadecimal digit value. -/
def hexVal (c : Char) : Option Nat :=
  if '0' ≤ c ∧ c ≤ '9' then some (c.toNat - 48)
  else if 'a' ≤ c ∧ c ≤ 'f' then some (c.toNat - 87)
  else if 'A' ≤ c ∧ c ≤ 'F' then some (c.toNat - 55)
  else none

/-- Parse the remainder of a JSON string literal (the opening quote already
consumed), handling the standard escapes. -/
def jsonStringAux : List Char → List Char → Option (String × List Char)
  | [], _ => none
  | c :: rest, acc =>
    if c = '"' then some (String.mk acc.reverse, rest)
    else if c = '\\' then
      match rest with
      | [] => none
      | e :: rest2 =>
        if e = '"' then jsonStringAux rest2 ('"' :: acc)
        else if e = '\\' then jsonStringAux rest2 ('\\' :: acc)
        else if e = '/' then jsonStringAux rest2 ('/' :: acc)
        else if e = 'n' then jsonStringAux rest2 ('\n' :: acc)
        else if e = 't' then jsonStringAux rest2 ('\t' :: acc)
        else if e = 'r' then jsonStringAux rest2 ('\r' :: acc)
        else if e = 'b' then jsonStringAux rest2 ('\x08' :: acc)
        else if e = 'f' then jsonStringAux rest2 ('\x0c' :: acc)
        else if e = 'u' then
          match rest2 with
          | h1 :: h2 :: h3 :: h4 :: rest3 =>
            match hexVal h1, hexVal h2, hexVal h3, hexVal h4 with
            | some a, some b, some c2, some d =>
              jsonStringAux rest3 (Char.ofNat (((a * 16 + b) * 16 + c2) * 16 + d) :: acc)
            | _, _, _, _ => none
          | _ => none
        else none
    else jsonStringAux rest (c :: acc)

/-- Fractional part of a JSON number ( `.digits`, or empty). -/
def jsonFracPart (l : List Char) : Option (List Char × List Char) :=
  match l with
  | '.' :: rest =>
    let ds := rest.takeWhile Char.isDigit
    if ds.isEmpty then none else some ('.' :: ds, rest.dropWhile Char.isDigit)
  | _ => some ([], l)

/-- Exponent part of a JSON number (`e`/`E` with optional sign, or empty). -/
def jsonExpPart (l : List Char) : Option (List Char × List Char) :=
  match l with
  | e :: rest =>
    if e = 'e' ∨ e = 'E' then
      let (sgn, rest2) : List Char × List Char :=
        match rest with
        | '+' :: r => (['+'], r)
        | '-' :: r => (['-'], r)
        | r => ([], r)
      let ds := rest2.takeWhile Char.isDigit
      if ds.isEmpty then none
      else some (e :: (sgn ++ ds), rest2.dropWhile Char.isDigit)
    else some ([], l)
  | [] => some ([], [])

/-- Parse a JSON number.  Integer literals become `vint`; literals with a
fraction or exponent keep their lexeme as `vfloat`. -/
def jsonNumber (l : List Char) : Option (PyVal × List Char) :=
  let (neg, l1) : Bool × List Char :=
    match l with
    | '-' :: r => (true, r)
    | r => (false, r)
  let intDs := l1.takeWhile Char.isDigit
  let l2 := l1.dropWhile Char.isDigit
  if intDs.isEmpty then none
  else if intDs.length > 1 ∧ intDs.head? = some '0' then none
  else
    match jsonFracPart l2 with
    | none => none
    | some (frac, l3) =>
      match jsonExpPart l3 with
      | none => none
      | some (ex, l4) =>
        if frac.isEmpty ∧ ex.isEmpty then
          (digitsToNatAux intDs 0).map
            (fun n => (PyVal.vint (if neg then -(n : Int) else (n : Int)), l4))
        else
          some (PyVal.vfloat (String.mk ((if neg then ['-'] else []) ++ intDs ++ frac ++ ex)), l4)

/-- Parsing mode of the fuelled JSON parser: a value, the members of an
object, or the items of an array. -/
inductive JMode where
  | value
  | members (acc : List (String × PyVal))
  | items (acc : List PyVal)

/-- Fuelled JSON parser modelling Python's `json.loads` grammar (objects,
arrays, strings, numbers, literals, `NaN`/`Infinity`). -/
def jsonP : Nat → JMode → List Char → Option (PyVal × List Char)
  | 0, _, _ => none
  | fuel + 1, .value, input =>
    match skipWs input with
    | [] => none
    | 't' :: 'r' :: 'u' :: 'e' :: r => some (.vbool true, r)
    | 'f' :: 'a' :: 'l' :: 's' :: 'e' :: r => some (.vbool false, r)
    | 'n' :: 'u' :: 'l' :: 'l' :: r => some (.vnull, r)
    | 'N' :: 'a' :: 'N' :: r => some (.vfloat "NaN", r)
    | 'I' :: 'n' :: 'f' :: 'i' :: 'n' :: 'i' :: 't' :: 'y' :: r =>
      some (.vfloat "Infinity", r)
    | '-' :: 'I' :: 'n' :: 'f' :: 'i' :: 'n' :: 'i' :: 't' :: 'y' :: r =>
      some (.vfloat "-Infinity", r)
    | '"' :: r => (jsonStringAux r []).map (fun p => (PyVal.vstr p.1, p.2))
    | c :: r =>
      if c = lbrace then
        match skipWs r with
        | [] => none
        | d :: r2 =>
          if d = rbrace then some (.vdict [], r2)
          else jsonP fuel (.members []) (d :: r2)
      else if c = '[' then
        match skipWs r with
        | ']' :: r2 => some (.vlist [], r2)
        | r2 => jsonP fuel (.items []) r2
      else jsonNumber (c :: r)
  | fuel + 1, .members acc, input =>
    match skipWs input with
    | '"' :: r =>
      match jsonStringAux r [] with
      | none => none
      | some (key, r2) =>
        match skipWs r2 with
        | ':' :: r3 =>
          match jsonP fuel .value r3 with
          | none => none
          | some (v, r4) =>
            match skipWs r4 with
            | ',' :: r5 => jsonP fuel (.members (dictSet acc key v)) r5
            | d :: r5 =>
              if d = rbrace then some (.vdict (dictSet acc key v), r5) else none
            | [] => none
        | _ => none
    | _ => none
  | fuel + 1, .items acc, input =>
    match jsonP fuel .value input with
    | none => none
    | some (v, r) =>
      match skipWs r with
      | ',' :: r2 => jsonP fuel (.items (acc ++ [v])) r2
      | ']' :: r2 => some (.vlist (acc ++ [v]), r2)
      | _ => none

/-- Python `json.loads`: parse one JSON document, requiring only trailing
whitespace after it.  `none` models a raised `JSONDecodeError`. -/
def jsonLoads (s : String) : Option PyVal :=
  match jsonP (2 * s.length + 2) .value s.toList with
  | some (v, rest) => if (skipWs rest).isEmpty then some v else none
  | none => none

example : jsonLoads "\x7b\x7d" = some (PyVal.vdict []) := rfl
example : jsonLoads "notjson" = none := rfl
example : jsonLoads "\x7b\"Id\" : [ 0 ]\x7d"
    = some (PyVal.vdict [("Id", PyVal.vlist [PyVal.vint 0])]) := rfl
example : jsonLoads "\x7b\"Status\":\"Open\"\x7d"
    = some (PyVal.vdict [("Status", PyVal.vstr "Open")]) := rfl
example : jsonLoads "\x7b\"UTC\":1624088218.0\x7d"
    = some (PyVal.vdict [("UTC", PyVal.vfloat "1624088218.0")]) := rfl
example : jsonLoads "" = none := rfl
example : jsonLoads "true" = some (PyVal.vbool true) := rfl

/-- Python `str(v)` as used by `"{0}-{1}".format(...)` for the values that
reach `get_event_key`.  Event codes on the wire are strings (the scalar
cases are exact); `str` of a container is never compared or stored by the
coordinator paths modelled here, so containers render as a marker. -/
def pyToString : PyVal → String
  | .vnull => "None"
  | .vbool b => if b then "True" else "False"
  | .vint n => toString n
  | .vfloat lx => lx
  | .vstr s => s
  | .vlist _ => "<list>"
  | .vdict _ => "<dict>"

/-- The mutable coordinator state of `DahuaDataUpdateCoordinator` consulted
by the claims: configured channel, derived channel number, discovered model
and machine name, the user-supplied device name, the listener registry and
the event-timestamp table.  Listener callbacks are opaque to the
coordinator (they are invoked with no arguments), so the registry is
modelled by its key set and dispatch results record the keys whose
callbacks were invoked. -/
structure Coordinator where
  channel : Int
  channel_number : Int
  model : String
  name : Option String
  machine_name : String
  dahua_event_listeners : List String
  dahua_event_timestamp : List (String × Int)

/-- `get_device_name`: the user-supplied name, falling back to the machine
name reported by the camera. -/
def get_device_name (c : Coordinator) : String :=
  match c.name with
  | some n => n
  | none => c.machine_name

/-- `get_event_key`: `"{0}-{1}".format(event_name, self._channel)`. -/
def get_event_key (c : Coordinator) (event_name : String) : String :=
  event_name ++ "-" ++ toString c.channel

/-- `add_dahua_event_listener`: registers a listener under the channel-
qualified event key. -/
def add_dahua_event_listener (c : Coordinator) (event_name : String) : Coordinator :=
  { c with dahua_event_listeners := get_event_key c event_name :: c.dahua_event_listeners }

/-- `get_event_timestamp`: the stored epoch for the event, `0` when absent. -/
def get_event_timestamp (c : Coordinator) (event_name : String) : Int :=
  (dictGet c.dahua_event_timestamp (get_event_key c event_name)).getD 0

/-- Store a timestamp in `self._dahua_event_timestamp`. -/
def setTimestamp (c : Coordinator) (key : String) (t : Int) : Coordinator :=
  { c with dahua_event_timestamp := dictSet c.dahua_event_timestamp key t }

/-- `supports_siren`: `"-AS-PV" in self.model`. -/
def supports_siren (c : Coordinator) : Bool := strContains c.model "-AS-PV"

/-- `supports_security_light`: `"-AS-PV" in self.model`. -/
def supports_security_light (c : Coordinator) : Bool := strContains c.model "-AS-PV"

/-- `is_doorbell`: the upper-cased model starts with `VTO`, `DHI` or `AD`. -/
def is_doorbell (c : Coordinator) : Bool :=
  let m := pyUpperStr c.model
  pyStartsWith m "VTO" || pyStartsWith m "DHI" || pyStartsWith m "AD"

/-- `translate_event_code`: for `CrossLineDetection` / `CrossRegionDetection`
with a nested human object type, rewrite the code to `SmartMotionHuman` when
the listener test passes.  The listener consulted is the one registered at
`get_event_key(code)` with `code` still the raw code — transcribed exactly
as the source has it. -/
def translate_event_code (c : Coordinator) (event : List (String × PyVal)) :
    Except PyErr PyVal :=
  let code := (dictGet event "Code").getD (.vstr "")
  if isStrEq code "CrossLineDetection" || isStrEq code "CrossRegionDetection" then
    let dataV := (dictGet event "data").getD ((dictGet event "Data").getD (.vdict []))
    match pyGetD dataV "Object" (.vdict []) with
    | .error e => .error e
    | .ok obj =>
      match pyGetD obj "ObjectType" (.vstr "") with
      | .error e => .error e
      | .ok ot =>
        match pyLower ot with
        | .error e => .error e
        | .ok low =>
          let is_human : Bool := low = "human"
          if is_human && c.dahua_event_listeners.contains (get_event_key c (pyToString code)) then
            .ok (.vstr "SmartMotionHuman")
          else .ok code
  else .ok code

/-- Outcome of one receive call: the updated coordinator, the events
published on the Home Assistant bus, and the listener keys whose callbacks
were invoked.  A raised exception is modelled as the `Except.error` result
of the enclosing function. -/
structure RecvState where
  coord : Coordinator
  bus : List (List (String × PyVal))
  invoked : List String

/-- The listener/action tail of `on_receive_vto_event` (everything after
the bus publish): translate the code, and if a listener is registered apply
the Start/Stop/Pulse transition to the timestamp table and invoke it. -/
def dispatch_vto (c : Coordinator) (now : Int) (event : List (String × PyVal)) :
    Except PyErr (Coordinator × List String) :=
  match translate_event_code c event with
  | .error e => .error e
  | .ok code =>
    let event_key := get_event_key c (pyToString code)
    if c.dahua_event_listeners.contains event_key then
      let action := (dictGet event "Action").getD (.vstr "")
      if isStrEq action "Start" then
        .ok (setTimestamp c event_key now, [event_key])
      else if isStrEq action "Stop" then
        .ok (setTimestamp c event_key 0, [event_key])
      else if isStrEq action "Pulse" then
        if isStrEq code "DoorStatus" then
          match pyGetD ((dictGet event "Data").getD (.vdict [])) "Status" (.vstr "") with
          | .error e => .error e
          | .ok status =>
            if isStrEq status "Open" then .ok (setTimestamp c event_key now, [event_key])
            else .ok (setTimestamp c event_key 0, [event_key])
        else
          match pyGetD ((dictGet event "Data").getD (.vdict [])) "State" (.vint 0) with
          | .error e => .error e
          | .ok stateV =>
            if pyEqInt stateV 1 then .ok (setTimestamp c event_key now, [event_key])
            else .ok (setTimestamp c event_key 0, [event_key])
      else .ok (c, [])
    else .ok (c, [])

/-- `on_receive_vto_event`: tag the structured doorbell payload with the
device name, publish it on the bus, then run the dispatch tail. -/
def on_receive_vto_event (c : Coordinator) (now : Int) (event : List (String × PyVal)) :
    Except PyErr RecvState :=
  let event2 := dictSet event "DeviceName" (.vstr (get_device_name c))
  match dispatch_vto c now event2 with
  | .error e => .error e
  | .ok (c2, invoked) => .ok { coord := c2, bus := [event2], invoked := invoked }

/-- `key, value = key_value.split('=')`: exactly two parts or `ValueError`. -/
def parse_kv (chunk : String) : Except PyErr (String × String) :=
  match pySplitOnChar '=' chunk with
  | [k, v] => .ok (k, v)
  | [_] => .error (.valueError "not enough values to unpack")
  | _ => .error (.valueError "too many values to unpack")

/-- The `for key_value in line.split(';')` loop building the event dict. -/
def parseChunksAux (ev : List (String × PyVal)) :
    List String → Except PyErr (List (String × PyVal))
  | [] => .ok ev
  | chunk :: rest =>
    match parse_kv chunk with
    | .error e => .error e
    | .ok (k, v) => parseChunksAux (dictSet ev k (.vstr v)) rest

/-- Build the event dict for one line: `event["name"]` first, then the
`key=value` chunks. -/
def parseChunks (devName : String) (chunks : List String) :
    Except PyErr (List (String × PyVal)) :=
  parseChunksAux [("name", .vstr devName)] chunks

/-- The `if "data" in event: try json.loads ...` step: a successful parse
replaces the raw string, a failed parse (or a non-string value) is swallowed
and the event is left unchanged. -/
def json_data_step (event : List (String × PyVal)) : List (String × PyVal) :=
  match dictGet event "data" with
  | some (.vstr s) =>
    match jsonLoads s with
    | some v => dictSet event "data" v
    | none => event
  | some _ => event
  | none => event

/-- The `index` extraction: `int(event["index"])` with `ValueError` mapped
to `0`, and `0` when the field is absent. -/
def event_index (event : List (String × PyVal)) : Int :=
  match dictGet event "index" with
  | some (.vstr s) => (pyIntParse s).getD 0
  | some _ => 0
  | none => 0

/-- The listener/action tail of `on_receive` (after the bus publish):
translate the code, and when a listener is registered apply the
Start/Stop transition (`event["action"]` raises `KeyError` if absent). -/
def dispatch_std (c : Coordinator) (now : Int) (event : List (String × PyVal)) :
    Except PyErr (Coordinator × List String) :=
  match translate_event_code c event with
  | .error e => .error e
  | .ok code =>
    let event_key := get_event_key c (pyToString code)
    if c.dahua_event_listeners.contains event_key then
      match dictGet event "action" with
      | none => .error (.keyError "action")
      | some action =>
        if isStrEq action "Start" then .ok (setTimestamp c event_key now, [event_key])
        else if isStrEq action "Stop" then .ok (setTimestamp c event_key 0, [event_key])
        else .ok (c, [])
    else .ok (c, [])

/-- One iteration of the `for line in data.split("\r\n")` loop of
`on_receive`: skip non-`Code=` lines, parse the `;`-chunks, decode the
nested JSON, discard events for other channels, publish and dispatch. -/
def processLine (now : Int) (st : RecvState) (line : String) : Except PyErr RecvState :=
  if pyStartsWith line "Code=" then
    match parseChunks (get_device_name st.coord) (pySplitOnChar ';' line) with
    | .error e => .error e
    | .ok ev0 =>
      let ev1 := json_data_step ev0
      if event_index ev1 ≠ st.coord.channel then .ok st
      else
        let ev2 := dictSet ev1 "DeviceName" (.vstr (get_device_name st.coord))
        match dispatch_std st.coord now ev2 with
        | .error e => .error e
        | .ok (c2, invoked2) =>
          .ok { coord := c2, bus := st.bus ++ [ev2], invoked := st.invoked ++ invoked2 }
  else .ok st

/-- `on_receive`: the standard event-stream entry point, folded over the
CRLF-separated lines of the (already UTF-8-decoded) chunk. -/
def on_receive (c : Coordinator) (now : Int) (data : String) : Except PyErr RecvState :=
  (pySplitCRLF data).foldlM (processLine now) { coord := c, bus := [], invoked := [] }

/-- The coordinator state as `__init__` leaves it: empty model and
registries, `channel_number = channel + 1`. -/
def coordInit (channel : Int) (name : Option String) : Coordinator :=
  { channel := channel
    channel_number := channel + 1
    model := ""
    name := name
    machine_name := ""
    dahua_event_listeners := []
    dahua_event_timestamp := [] }

/-- Outcome of `async_get_snapshot(0)` during first refresh: success, or a
raised `ClientError`. -/
inductive SnapshotResult where
  | ok
  | clientError

/-- The snapshot probe of `_async_update_data`: on success the channel
number is reset to the channel index; a `ClientError` is caught and
ignored, so the probe never fails the refresh. -/
def snapshot_probe (c : Coordinator) (r : SnapshotResult) : Except PyErr Coordinator :=
  match r with
  | .ok => .ok { c with channel_number := c.channel }
  | .clientError => .ok c

/-- Result of the model-determination step of capability discovery. -/
structure ModelResolution where
  model : Option PyVal
  queried_device_type : Bool

/-- The model determination of `_async_update_data`: `deviceType` unless it
is absent or `"IP Camera"`, then `updateSerial`, then the device-type query
(whose `type` field is passed in as `api_type`). -/
def resolve_device_type (data : List (String × PyVal)) (api_type : Option PyVal) :
    ModelResolution :=
  let device_type := dictGet data "deviceType"
  if (match device_type with
      | none => true
      | some v => isStrEq v "IP Camera") then
    match dictGet data "updateSerial" with
    | some u => { model := some u, queried_device_type := false }
    | none => { model := api_type, queried_device_type := true }
  else { model := device_type, queried_device_type := false }

/-- A channel-0 coordinator with no listeners (user-named `Cam13`). -/
def coordCh0 : Coordinator := coordInit 0 (some "Cam13")

/-- A channel-0 coordinator with a listener registered for `VideoMotion`. -/
def coordVM : Coordinator := add_dahua_event_listener coordCh0 "VideoMotion"

/-- A channel-1 coordinator with a listener registered for `VideoMotion`. -/
def coordCh1VM : Coordinator := add_dahua_event_listener (coordInit 1 (some "Cam13")) "VideoMotion"

/-- A channel-0 coordinator with a listener registered only for
`SmartMotionHuman`. -/
def coordSmart : Coordinator := add_dahua_event_listener coordCh0 "SmartMotionHuman"

/-- A channel-0 coordinator with a listener registered only for
`CrossRegionDetection`. -/
def coordCross : Coordinator := add_dahua_event_listener coordCh0 "CrossRegionDetection"

/-- A channel-0 coordinator with a listener registered for `DoorStatus`. -/
def coordDoor : Coordinator := add_dahua_event_listener coordCh0 "DoorStatus"

/-- The raw standard-stream chunk of spec §8 test 3 (after the total UTF-8
lossy decode): `Code=VideoMotion;action=Start;index=0;data={}\r\n\r\n`. -/
def c5Input : String := "Code=VideoMotion;action=Start;index=0;data=\x7b\x7d\r\n\r\n"

/-- The event dict that `on_receive` publishes for `c5Input` on channel 0. -/
def c5Event : List (String × PyVal) :=
  [("name", .vstr "Cam13"), ("Code", .vstr "VideoMotion"), ("action", .vstr "Start"),
   ("index", .vstr "0"), ("data", .vdict []), ("DeviceName", .vstr "Cam13")]

/-- A malformed standard-stream chunk: the second `;`-chunk has no `=`. -/
def badChunkInput : String := "Code=VideoMotion;garbage\r\n\r\n"

/-- A human `CrossRegionDetection` event as delivered to
`translate_event_code` (spec §4.4 example). -/
def humanCrossEvent : List (String × PyVal) :=
  [("Code", .vstr "CrossRegionDetection"),
   ("Data", .vdict [("Object", .vdict [("ObjectType", .vstr "Human")])])]

/-- Doorbell `DoorStatus` `Pulse` payload with the given nested status. -/
def doorEvent (status : String) : List (String × PyVal) :=
  [("Code", .vstr "DoorStatus"), ("Action", .vstr "Pulse"),
   ("Data", .vdict [("LocaleTime", .vstr "2021-04-11 21:34:52"),
                    ("Status", .vstr status), ("UTC", .vint 1618148092)]),
   ("Index", .vint 0)]

/-- A doorbell `VideoMotion` `Start` payload. -/
def vtoStartEvent : List (String × PyVal) :=
  [("Code", .vstr "VideoMotion"), ("Action", .vstr "Start"),
   ("Data", .vdict [("LocaleTime", .vstr "2021-06-19 15:36:58")])]

/-- Coordinator state after the first `DoorStatus` `Open` pulse at `t`. -/
def doorS1 (t : Int) : Coordinator := setTimestamp coordDoor "DoorStatus-0" t

/-- Coordinator state after the following `Closed` pulse. -/
def doorS2 (t : Int) : Coordinator := setTimestamp (doorS1 t) "DoorStatus-0" 0

/-- Coordinator state after the final `Open` pulse at `t3`. -/
def doorS3 (t t3 : Int) : Coordinator := setTimestamp (doorS2 t) "DoorStatus-0" t3

/-- The timestamp-table invariant of spec §3: every stored value is `0` or
an epoch no later than the current time. -/
def tableInv (t : List (String × Int)) (now : Int) : Prop :=
  ∀ p ∈ t, p.2 = 0 ∨ p.2 ≤ now

/-- Merged discovery fields of a firmware that reports
`deviceType = "IP Camera"` and puts the real model in `updateSerial`. -/
def c3Data : List (String × PyVal) :=
  [("deviceType", .vstr "IP Camera"), ("updateSerial", .vstr "NVR2104-HS")]

example : pyStartsWith "Code=VideoMotion;garbage" "Code=" = true := by decide
example : on_receive coordCh0 100 c5Input
    = .ok { coord := coordCh0, bus := [c5Event], invoked := [] } := rfl
example : on_receive coordVM 100 c5Input
    = .ok { coord := setTimestamp coordVM "VideoMotion-0" 100,
            bus := [c5Event], invoked := ["VideoMotion-0"] } := rfl
example : on_receive coordCh1VM 100 c5Input
    = .ok { coord := coordCh1VM, bus := [], invoked := [] } := rfl
example : on_receive coordCh0 100 badChunkInput
    = .error (.valueError "not enough values to unpack") := rfl
example : translate_event_code coordSmart humanCrossEvent
    = .ok (.vstr "CrossRegionDetection") := rfl
example : translate_event_code coordCross humanCrossEvent
    = .ok (.vstr "SmartMotionHuman") := rfl
example : on_receive_vto_event coordDoor 100 (doorEvent "Open")
    = .ok { coord := setTimestamp coordDoor "DoorStatus-0" 100,
            bus := [dictSet (doorEvent "Open") "DeviceName" (.vstr "Cam13")],
            invoked := ["DoorStatus-0"] } := rfl
example : on_receive_vto_event coordCh0 100 vtoStartEvent
    = .ok { coord := coordCh0,
            bus := [dictSet vtoStartEvent "DeviceName" (.vstr "Cam13")],
            invoked := [] } := rfl
example : pySplitOnChar ';' "Code=VideoMotion;action=Start" = ["Code=VideoMotion", "action=Start"] := by decide
example : pySplitCRLF "a\r\nb\r\n" = ["a", "b", ""] := by decide
example : pyIntParse " 12 " = some 12 := by decide
example : pyIntParse "x" = none := by decide
example : strContains "IPC-HDW3849HP-AS-PV" "-AS-PV" = true := by decide
example : pyUpperStr "vto2211g" = "VTO2211G" := by decide

example (now : Int) : on_receive coordVM now c5Input
    = .ok { coord := setTimestamp coordVM "VideoMotion-0" now,
            bus := [c5Event], invoked := ["VideoMotion-0"] } := rfl
example (now1 : Int) : on_receive_vto_event (setTimestamp coordDoor "DoorStatus-0" now1) 0
      (doorEvent "Close")
    = .ok { coord := setTimestamp (setTimestamp coordDoor "DoorStatus-0" now1) "DoorStatus-0" 0,
            bus := [dictSet (doorEvent "Close") "DeviceName" (.vstr "Cam13")],
            invoked := ["DoorStatus-0"] } := rfl

theorem tableInv_nil (now : Int) : tableInv [] now := by
  intro p hp
  cases hp

theorem tableInv_dictSet {now v : Int} (hv : v = 0 ∨ v ≤ now) (k : String) :
    ∀ t : List (String × Int), tableInv t now → tableInv (dictSet t k v) now := by
  intro t
  induction t with
  | nil =>
    intro _ p hp
    simp only [dictSet, List.mem_singleton] at hp
    subst hp
    exact hv
  | cons hd tl ih =>
    intro h p hp
    obtain ⟨k0, v0⟩ := hd
    simp only [dictSet] at hp
    by_cases hk : k0 = k
    · rw [if_pos hk] at hp
      rcases List.mem_cons.mp hp with hp | hp
      · subst hp
        exact hv
      · exact h p (List.mem_cons_of_mem _ hp)
    · rw [if_neg hk] at hp
      rcases List.mem_cons.mp hp with hp | hp
      · subst hp
        exact h (k0, v0) (List.mem_cons_self _ _)
      · exact ih (fun q hq => h q (List.mem_cons_of_mem _ hq)) p hp

theorem tableInv_setTimestamp {c : Coordinator} {now v : Int}
    (h : tableInv c.dahua_event_timestamp now) (hv : v = 0 ∨ v ≤ now) (k : String) :
    tableInv (setTimestamp c k v).dahua_event_timestamp now :=
  tableInv_dictSet hv k _ h


theorem ok_pair_fst {x : Coordinator × List String} {c2 : Coordinator} {inv : List String}
    (hok : (Except.ok x : Except PyErr (Coordinator × List String)) = .ok (c2, inv)) :
    c2 = x.1 := by
  injection hok with h
  rw [h]

theorem dispatch_vto_tableInv {c : Coordinator} {now : Int} {ev : List (String × PyVal)}
    {c2 : Coordinator} {inv : List String}
    (hok : dispatch_vto c now ev = .ok (c2, inv))
    (h : tableInv c.dahua_event_timestamp now) :
    tableInv c2.dahua_event_timestamp now := by
  unfold dispatch_vto at hok
  cases htr : translate_event_code c ev with
  | error e =>
    rw [htr] at hok
    exact absurd hok (by simp)
  | ok code =>
    rw [htr] at hok
    dsimp only at hok
    by_cases hc : c.dahua_event_listeners.contains (get_event_key c (pyToString code)) = true
    · rw [if_pos hc] at hok
      by_cases ha1 : isStrEq ((dictGet ev "Action").getD (PyVal.vstr "")) "Start" = true
      · rw [if_pos ha1] at hok
        rw [ok_pair_fst hok]
        exact tableInv_setTimestamp h (Or.inr le_rfl) _
      · rw [if_neg ha1] at hok
        by_cases ha2 : isStrEq ((dictGet ev "Action").getD (PyVal.vstr "")) "Stop" = true
        · rw [if_pos ha2] at hok
          rw [ok_pair_fst hok]
          exact tableInv_setTimestamp h (Or.inl rfl) _
        · rw [if_neg ha2] at hok
          by_cases ha3 : isStrEq ((dictGet ev "Action").getD (PyVal.vstr "")) "Pulse" = true
          · rw [if_pos ha3] at hok
            by_cases hd : isStrEq code "DoorStatus" = true
            · rw [if_pos hd] at hok
              cases hst : pyGetD ((dictGet ev "Data").getD (PyVal.vdict [])) "Status" (PyVal.vstr "") with
              | error e =>
                rw [hst] at hok
                exact absurd hok (by simp)
              | ok status =>
                rw [hst] at hok
                dsimp only at hok
                by_cases ho : isStrEq status "Open" = true
                · rw [if_pos ho] at hok
                  rw [ok_pair_fst hok]
                  exact tableInv_setTimestamp h (Or.inr le_rfl) _
                · rw [if_neg ho] at hok
                  rw [ok_pair_fst hok]
                  exact tableInv_setTimestamp h (Or.inl rfl) _
            · rw [if_neg hd] at hok
              cases hst : pyGetD ((dictGet ev "Data").getD (PyVal.vdict [])) "State" (PyVal.vint 0) with
              | error e =>
                rw [hst] at hok
                exact absurd hok (by simp)
              | ok stateV =>
                rw [hst] at hok
                dsimp only at hok
                by_cases hs1 : pyEqInt stateV 1 = true
                · rw [if_pos hs1] at hok
                  rw [ok_pair_fst hok]
                  exact tableInv_setTimestamp h (Or.inr le_rfl) _
                · rw [if_neg hs1] at hok
                  rw [ok_pair_fst hok]
                  exact tableInv_setTimestamp h (Or.inl rfl) _
          · rw [if_neg ha3] at hok
            rw [ok_pair_fst hok]
            exact h
    · rw [if_neg hc] at hok
      rw [ok_pair_fst hok]
      exact h

theorem dispatch_std_tableInv {c : Coordinator} {now : Int} {ev : List (String × PyVal)}
    {c2 : Coordinator} {inv : List String}
    (hok : dispatch_std c now ev = .ok (c2, inv))
    (h : tableInv c.dahua_event_timestamp now) :
    tableInv c2.dahua_event_timestamp now := by
  unfold dispatch_std at hok
  cases htr : translate_event_code c ev with
  | error e =>
    rw [htr] at hok
    exact absurd hok (by simp)
  | ok code =>
    rw [htr] at hok
    dsimp only at hok
    by_cases hc : c.dahua_event_listeners.contains (get_event_key c (pyToString code)) = true
    · rw [if_pos hc] at hok
      cases hac : dictGet ev "action" with
      | none =>
        rw [hac] at hok
        exact absurd hok (by simp)
      | some action =>
        rw [hac] at hok
        dsimp only at hok
        by_cases ha1 : isStrEq action "Start" = true
        · rw [if_pos ha1] at hok
          rw [ok_pair_fst hok]
          exact tableInv_setTimestamp h (Or.inr le_rfl) _
        · rw [if_neg ha1] at hok
          by_cases ha2 : isStrEq action "Stop" = true
          · rw [if_pos ha2] at hok
            rw [ok_pair_fst hok]
            exact tableInv_setTimestamp h (Or.inl rfl) _
          · rw [if_neg ha2] at hok
            rw [ok_pair_fst hok]
            exact h
    · rw [if_neg hc] at hok
      rw [ok_pair_fst hok]
      exact h

theorem dispatch_std_listeners {c : Coordinator} {now : Int} {ev : List (String × PyVal)}
    {c2 : Coordinator} {inv : List String}
    (hok : dispatch_std c now ev = .ok (c2, inv)) :
    c2.dahua_event_listeners = c.dahua_event_listeners := by
  unfold dispatch_std at hok
  cases htr : translate_event_code c ev with
  | error e =>
    rw [htr] at hok
    exact absurd hok (by simp)
  | ok code =>
    rw [htr] at hok
    dsimp only at hok
    by_cases hc : c.dahua_event_listeners.contains (get_event_key c (pyToString code)) = true
    · rw [if_pos hc] at hok
      cases hac : dictGet ev "action" with
      | none =>
        rw [hac] at hok
        exact absurd hok (by simp)
      | some action =>
        rw [hac] at hok
        dsimp only at hok
        by_cases ha1 : isStrEq action "Start" = true
        · rw [if_pos ha1] at hok
          rw [ok_pair_fst hok]
          rfl
        · rw [if_neg ha1] at hok
          by_cases ha2 : isStrEq action "Stop" = true
          · rw [if_pos ha2] at hok
            rw [ok_pair_fst hok]
            rfl
          · rw [if_neg ha2] at hok
            rw [ok_pair_fst hok]
    · rw [if_neg hc] at hok
      rw [ok_pair_fst hok]

theorem processLine_tableInv {now : Int} {st st2 : RecvState} {line : String}
    (hok : processLine now st line = .ok st2)
    (h : tableInv st.coord.dahua_event_timestamp now) :
    tableInv st2.coord.dahua_event_timestamp now := by
  unfold processLine at hok
  by_cases hsw : pyStartsWith line "Code=" = true
  · rw [if_pos hsw] at hok
    cases hpc : parseChunks (get_device_name st.coord) (pySplitOnChar ';' line) with
    | error e =>
      rw [hpc] at hok
      exact absurd hok (by simp)
    | ok ev0 =>
      rw [hpc] at hok
      dsimp only at hok
      by_cases hidx : event_index (json_data_step ev0) ≠ st.coord.channel
      · rw [if_pos hidx] at hok
        injection hok with h2
        rw [← h2]
        exact h
      · rw [if_neg hidx] at hok
        cases hds : dispatch_std st.coord now
            (dictSet (json_data_step ev0) "DeviceName" (PyVal.vstr (get_device_name st.coord))) with
        | error e =>
          rw [hds] at hok
          exact absurd hok (by simp)
        | ok pr =>
          obtain ⟨c2, inv2⟩ := pr
          rw [hds] at hok
          dsimp only at hok
          injection hok with h2
          rw [← h2]
          exact dispatch_std_tableInv hds h
  · rw [if_neg hsw] at hok
    injection hok with h2
    rw [← h2]
    exact h

theorem except_bind_error {α β : Type} (e : PyErr) (g : α → Except PyErr β) :
    (Except.error e >>= g) = Except.error e := rfl

theorem except_bind_ok {α β : Type} (a : α) (g : α → Except PyErr β) :
    (Except.ok a >>= g) = g a := rfl

theorem foldl_processLine_tableInv (now : Int) :
    ∀ (lines : List String) (st r : RecvState),
      List.foldlM (processLine now) st lines = .ok r →
      tableInv st.coord.dahua_event_timestamp now →
      tableInv r.coord.dahua_event_timestamp now := by
  intro lines
  induction lines with
  | nil =>
    intro st r hok h
    simp only [List.foldlM_nil] at hok
    injection hok with h2
    rw [← h2]
    exact h
  | cons l ls ih =>
    intro st r hok h
    rw [List.foldlM_cons] at hok
    cases hpl : processLine now st l with
    | error e =>
      rw [hpl, except_bind_error] at hok
      exact absurd hok (by simp)
    | ok st1 =>
      rw [hpl, except_bind_ok] at hok
      exact ih st1 r hok (processLine_tableInv hpl h)

theorem on_receive_tableInv {c : Coordinator} {now : Int} {input : String} {r : RecvState}
    (hok : on_receive c now input = .ok r)
    (h : tableInv c.dahua_event_timestamp now) :
    tableInv r.coord.dahua_event_timestamp now :=
  foldl_processLine_tableInv now (pySplitCRLF input) _ r hok h

theorem on_receive_vto_tableInv {c : Coordinator} {now : Int}
    {ev : List (String × PyVal)} {r : RecvState}
    (hok : on_receive_vto_event c now ev = .ok r)
    (h : tableInv c.dahua_event_timestamp now) :
    tableInv r.coord.dahua_event_timestamp now := by
  unfold on_receive_vto_event at hok
  dsimp only at hok
  cases hdv : dispatch_vto c now (dictSet ev "DeviceName" (PyVal.vstr (get_device_name c))) with
  | error e =>
    rw [hdv] at hok
    exact absurd hok (by simp)
  | ok pr =>
    obtain ⟨c2, inv2⟩ := pr
    rw [hdv] at hok
    dsimp only at hok
    injection hok with h2
    rw [← h2]
    exact dispatch_vto_tableInv hdv h

theorem parse_kv_ok_len {ch : String} {kv : String × String}
    (h : parse_kv ch = .ok kv) : (pySplitOnChar '=' ch).length = 2 := by
  unfold parse_kv at h
  split at h
  · next k v heq => rw [heq]; rfl
  · exact absurd h (by simp)
  · exact absurd h (by simp)

theorem parseChunksAux_err :
    ∀ (chunks : List String) (ev : List (String × PyVal)),
      (∃ ch ∈ chunks, (pySplitOnChar '=' ch).length ≠ 2) →
      ∃ e, parseChunksAux ev chunks = .error e := by
  intro chunks
  induction chunks with
  | nil =>
    intro ev hbad
    obtain ⟨ch, hmem, -⟩ := hbad
    cases hmem
  | cons c rest ih =>
    intro ev hbad
    obtain ⟨ch, hmem, hlen⟩ := hbad
    unfold parseChunksAux
    cases hpk : parse_kv c with
    | error e =>
      exact ⟨e, rfl⟩
    | ok kv =>
      obtain ⟨k, v⟩ := kv
      rcases List.mem_cons.mp hmem with heq | hmem2
      · subst heq
        exact absurd (parse_kv_ok_len hpk) hlen
      · exact ih (dictSet ev k (PyVal.vstr v)) ⟨ch, hmem2, hlen⟩

theorem dispatch_vto_doorEvent (status : String) (now : Int) :
    dispatch_vto coordDoor now (dictSet (doorEvent status) "DeviceName" (PyVal.vstr "Cam13"))
      = .ok (setTimestamp coordDoor "DoorStatus-0" (if status = "Open" then now else 0),
             ["DoorStatus-0"]) := by
  have hred : dispatch_vto coordDoor now
      (dictSet (doorEvent status) "DeviceName" (PyVal.vstr "Cam13"))
      = if isStrEq (PyVal.vstr status) "Open" = true
        then Except.ok (setTimestamp coordDoor "DoorStatus-0" now, ["DoorStatus-0"])
        else Except.ok (setTimestamp coordDoor "DoorStatus-0" 0, ["DoorStatus-0"]) := rfl
  rw [hred]
  by_cases hs : status = "Open"
  · simp [isStrEq, hs]
  · simp [isStrEq, hs]

theorem on_receive_vto_doorEvent (status : String) (now : Int) :
    on_receive_vto_event coordDoor now (doorEvent status)
      = .ok { coord := setTimestamp coordDoor "DoorStatus-0" (if status = "Open" then now else 0),
              bus := [dictSet (doorEvent status) "DeviceName" (PyVal.vstr "Cam13")],
              invoked := ["DoorStatus-0"] } := by
  unfold on_receive_vto_event
  dsimp only
  rw [show get_device_name coordDoor = "Cam13" from rfl]
  rw [dispatch_vto_doorEvent]

/-- Claim C1: contrary to the claim (and to the function's own doc string,
which says the rewrite happens "if the device has a listener for the more
specific type"), `translate_event_code` consults the listener registered
for the RAW code key, not for `SmartMotionHuman`.  On a human
`CrossRegionDetection` event, a coordinator listening only for
`SmartMotionHuman` gets no translation, while a coordinator listening only
for `CrossRegionDetection` gets the event translated away to
`SmartMotionHuman`. -/
theorem C1_translate_checks_raw_code_listener :
    translate_event_code coordSmart humanCrossEvent = .ok (.vstr "CrossRegionDetection")
    ∧ translate_event_code coordCross humanCrossEvent = .ok (.vstr "SmartMotionHuman")
    ∧ coordSmart.dahua_event_listeners.contains (get_event_key coordSmart "SmartMotionHuman") = true
    ∧ coordCross.dahua_event_listeners.contains (get_event_key coordCross "SmartMotionHuman") = false
    ∧ ("CrossRegionDetection" : String) ≠ "SmartMotionHuman" :=
  ⟨rfl, rfl, rfl, rfl, by decide⟩

/-- Claim C2 is false as stated: a doorbell `VideoMotion` `Start` event
with no registered listener leaves the timestamp table untouched (the
entry stays absent, reading as `0`, instead of being set to the current
epoch `1624168340`). -/
theorem C2_counterexample :
    on_receive_vto_event coordCh0 1624168340 vtoStartEvent
      = .ok { coord := coordCh0,
              bus := [dictSet vtoStartEvent "DeviceName" (PyVal.vstr "Cam13")],
              invoked := [] }
    ∧ get_event_timestamp coordCh0 "VideoMotion" = 0
    ∧ ((0 : Int) ≠ 1624168340) :=
  ⟨rfl, rfl, by decide⟩

/-- Claim C2, amended: on both the doorbell and the standard-stream path,
when no listener is registered for the dispatched key the dispatch tail
leaves the coordinator (and with it the timestamp table) unchanged and
invokes nothing; timestamp entries are updated only under a registered
listener. -/
theorem C2_no_listener_no_update :
    (∀ (c : Coordinator) (now : Int) (ev : List (String × PyVal)) (code : PyVal),
        translate_event_code c ev = .ok code →
        c.dahua_event_listeners.contains (get_event_key c (pyToString code)) = false →
        dispatch_vto c now ev = .ok (c, []))
    ∧ (∀ (c : Coordinator) (now : Int) (ev : List (String × PyVal)) (code : PyVal),
        translate_event_code c ev = .ok code →
        c.dahua_event_listeners.contains (get_event_key c (pyToString code)) = false →
        dispatch_std c now ev = .ok (c, []))
    ∧ (∀ (c : Coordinator) (now : Int) (ev : List (String × PyVal)) (code : PyVal),
        translate_event_code c (dictSet ev "DeviceName" (PyVal.vstr (get_device_name c))) = .ok code →
        c.dahua_event_listeners.contains (get_event_key c (pyToString code)) = false →
        on_receive_vto_event c now ev
          = .ok { coord := c,
                  bus := [dictSet ev "DeviceName" (PyVal.vstr (get_device_name c))],
                  invoked := [] }) := by
  refine ⟨?_, ?_, ?_⟩
  · intro c now ev code htr hcon
    unfold dispatch_vto
    rw [htr]
    dsimp only
    rw [hcon]
    simp
  · intro c now ev code htr hcon
    unfold dispatch_std
    rw [htr]
    dsimp only
    rw [hcon]
    simp
  · intro c now ev code htr hcon
    have h1 : dispatch_vto c now (dictSet ev "DeviceName" (PyVal.vstr (get_device_name c)))
        = .ok (c, []) := by
      unfold dispatch_vto
      rw [htr]
      dsimp only
      rw [hcon]
      simp
    unfold on_receive_vto_event
    dsimp only
    rw [h1]

/-- Claim C2 witness: the amended statement applied to the concrete
no-listener doorbell `Start` event. -/
theorem C2_witness :
    dispatch_vto coordCh0 1624168340 (dictSet vtoStartEvent "DeviceName" (PyVal.vstr "Cam13"))
      = .ok (coordCh0, []) :=
  C2_no_listener_no_update.1 coordCh0 1624168340
    (dictSet vtoStartEvent "DeviceName" (PyVal.vstr "Cam13")) (PyVal.vstr "VideoMotion") rfl rfl

/-- Claim C3 is false as stated: with `deviceType` present but equal to
`"IP Camera"`, the code still consults `updateSerial` and takes the model
from there instead of from `deviceType`. -/
theorem C3_counterexample :
    resolve_device_type c3Data (some (.vstr "FromQuery"))
      = { model := some (.vstr "NVR2104-HS"), queried_device_type := false }
    ∧ dictGet c3Data "deviceType" = some (.vstr "IP Camera")
    ∧ ("NVR2104-HS" : String) ≠ "IP Camera" :=
  ⟨rfl, rfl, by decide⟩

/-- Claim C3, amended: the model is taken from `deviceType` whenever that
field is present AND different from `"IP Camera"`; `updateSerial` is
consulted when `deviceType` is absent or equals `"IP Camera"`; the explicit
device-type query is issued only when `updateSerial` is then absent too. -/
theorem C3_model_priority (data : List (String × PyVal)) (api_type : Option PyVal) :
    (∀ v, dictGet data "deviceType" = some v → isStrEq v "IP Camera" = false →
        resolve_device_type data api_type = { model := some v, queried_device_type := false })
    ∧ (∀ u, (dictGet data "deviceType" = none ∨
          ∃ v, dictGet data "deviceType" = some v ∧ isStrEq v "IP Camera" = true) →
        dictGet data "updateSerial" = some u →
        resolve_device_type data api_type = { model := some u, queried_device_type := false })
    ∧ ((dictGet data "deviceType" = none ∨
          ∃ v, dictGet data "deviceType" = some v ∧ isStrEq v "IP Camera" = true) →
        dictGet data "updateSerial" = none →
        resolve_device_type data api_type = { model := api_type, queried_device_type := true }) := by
  refine ⟨?_, ?_, ?_⟩
  · intro v hv hne
    simp [resolve_device_type, hv, hne]
  · intro u hdt hu
    rcases hdt with hdt | ⟨v, hv, hip⟩
    · simp [resolve_device_type, hdt, hu]
    · simp [resolve_device_type, hv, hip, hu]
  · intro hdt hu
    rcases hdt with hdt | ⟨v, hv, hip⟩
    · simp [resolve_device_type, hdt, hu]
    · simp [resolve_device_type, hv, hip, hu]

/-- Claim C3 witness: a present, non-`"IP Camera"` `deviceType` is used
directly and the device-type query is not issued. -/
theorem C3_witness :
    resolve_device_type [("deviceType", PyVal.vstr "NVR5216-4KS2")] none
      = { model := some (PyVal.vstr "NVR5216-4KS2"), queried_device_type := false } :=
  (C3_model_priority [("deviceType", PyVal.vstr "NVR5216-4KS2")] none).1
    (PyVal.vstr "NVR5216-4KS2") rfl rfl

/-- Claim C4 is false as stated: a `Code=` line whose second `;`-chunk has
no `=` makes `on_receive` raise `ValueError` (Python's tuple unpacking)
instead of skipping the line. -/
theorem C4_counterexample :
    on_receive coordCh0 100 badChunkInput
      = .error (.valueError "not enough values to unpack") := rfl

/-- Claim C4, amended: standard-stream parsing is NOT total.  A `Code=`
line containing a `;`-chunk that does not split into exactly two parts on
`=` raises `ValueError` out of `on_receive`; only the nested-data JSON
parse failure is non-fatal, retaining the raw string in the event. -/
theorem C4_malformed_chunk_raises :
    (∀ (now : Int) (st : RecvState) (line : String),
        pyStartsWith line "Code=" = true →
        (∃ ch ∈ pySplitOnChar ';' line, (pySplitOnChar '=' ch).length ≠ 2) →
        ∃ e, processLine now st line = .error e)
    ∧ processLine 100 { coord := coordCh0, bus := [], invoked := [] }
        "Code=VideoMotion;action=Start;index=0;data=notjson"
      = .ok { coord := coordCh0,
              bus := [[("name", .vstr "Cam13"), ("Code", .vstr "VideoMotion"),
                       ("action", .vstr "Start"), ("index", .vstr "0"),
                       ("data", .vstr "notjson"), ("DeviceName", .vstr "Cam13")]],
              invoked := [] } := by
  constructor
  · intro now st line hsw hbad
    obtain ⟨e, he⟩ := parseChunksAux_err (pySplitOnChar ';' line)
      [("name", PyVal.vstr (get_device_name st.coord))] hbad
    refine ⟨e, ?_⟩
    unfold processLine parseChunks
    rw [if_pos hsw, he]
  · rfl

/-- Claim C4 witness: the amended raising behaviour applied to the
concrete malformed line. -/
theorem C4_witness :
    ∃ e, processLine 100 { coord := coordCh0, bus := [], invoked := [] }
        "Code=VideoMotion;garbage" = .error e :=
  C4_malformed_chunk_raises.1 100 { coord := coordCh0, bus := [], invoked := [] }
    "Code=VideoMotion;garbage" (by decide) ⟨"garbage", by decide, by decide⟩

/-- Claim C5 is false as stated: with channel 0 but NO listener registered
for `(VideoMotion, 0)`, the input is published on the bus but the
timestamp-table key is not set to the current epoch `1624088218` — it
stays absent, reading `0`. -/
theorem C5_counterexample :
    on_receive coordCh0 1624088218 c5Input
      = .ok { coord := coordCh0, bus := [c5Event], invoked := [] }
    ∧ get_event_timestamp coordCh0 "VideoMotion" = 0
    ∧ ((0 : Int) ≠ 1624088218) :=
  ⟨rfl, rfl, by decide⟩

/-- Claim C5, amended: with a listener registered for `(VideoMotion, 0)`
and channel 0, the raw input produces exactly one dispatched event with
code `VideoMotion` and action `Start` and sets the `(VideoMotion, 0)`
timestamp to the nonzero current epoch; with channel 1 the same input is
discarded entirely — no dispatch, no bus publish, no table change. -/
theorem C5_video_motion_start (now : Int) (h : 0 < now) :
    on_receive coordVM now c5Input
      = .ok { coord := setTimestamp coordVM "VideoMotion-0" now,
              bus := [c5Event], invoked := ["VideoMotion-0"] }
    ∧ get_event_timestamp (setTimestamp coordVM "VideoMotion-0" now) "VideoMotion" = now
    ∧ now ≠ 0
    ∧ dictGet c5Event "Code" = some (.vstr "VideoMotion")
    ∧ dictGet c5Event "action" = some (.vstr "Start")
    ∧ on_receive coordCh1VM now c5Input
        = .ok { coord := coordCh1VM, bus := [], invoked := [] } :=
  ⟨rfl, rfl, by omega, rfl, rfl, rfl⟩

/-- Claim C5 witness: the amended statement at the concrete epoch. -/
theorem C5_witness :
    on_receive coordVM 1624088218 c5Input
      = .ok { coord := setTimestamp coordVM "VideoMotion-0" 1624088218,
              bus := [c5Event], invoked := ["VideoMotion-0"] } :=
  (C5_video_motion_start 1624088218 (by decide)).1

/-- Claim C6: `is_doorbell` is true exactly when the upper-cased model
starts with `VTO`, `DHI` or `AD`; in particular it is false for
`IPC-HDW3849HP-AS-PV` and true for `VTO2211G`. -/
theorem C6_is_doorbell_spec (c : Coordinator) :
    (is_doorbell c = true ↔
      (pyStartsWith (pyUpperStr c.model) "VTO" || pyStartsWith (pyUpperStr c.model) "DHI"
        || pyStartsWith (pyUpperStr c.model) "AD") = true)
    ∧ is_doorbell { c with model := "IPC-HDW3849HP-AS-PV" } = false
    ∧ is_doorbell { c with model := "VTO2211G" } = true :=
  ⟨Iff.rfl, rfl, rfl⟩

/-- Claim C7 is false as stated: a `DoorStatus` `Pulse` with nested
`Status = "Open"` but NO listener registered leaves the timestamp table
untouched (reads `0`) instead of setting the state Active at the current
epoch `1618148092`. -/
theorem C7_counterexample :
    on_receive_vto_event coordCh0 1618148092 (doorEvent "Open")
      = .ok { coord := coordCh0,
              bus := [dictSet (doorEvent "Open") "DeviceName" (PyVal.vstr "Cam13")],
              invoked := [] }
    ∧ get_event_timestamp coordCh0 "DoorStatus" = 0
    ∧ ((0 : Int) ≠ 1618148092) :=
  ⟨rfl, rfl, by decide⟩

/-- Claim C7, amended: given a listener registered for `(DoorStatus, 0)`,
a `Pulse` with code `DoorStatus` sets the timestamp to the current epoch
when the nested `Status` is `"Open"` and to `0` for any other status, and
the Open → Closed → Open sequence yields the timestamp sequence
nonzero → 0 → nonzero. -/
theorem C7_door_status_roundtrip (now1 now2 now3 : Int) (h1 : 0 < now1) (h3 : 0 < now3) :
    (∀ (status : String) (now : Int),
        on_receive_vto_event coordDoor now (doorEvent status)
          = .ok { coord := setTimestamp coordDoor "DoorStatus-0"
                    (if status = "Open" then now else 0),
                  bus := [dictSet (doorEvent status) "DeviceName" (PyVal.vstr "Cam13")],
                  invoked := ["DoorStatus-0"] })
    ∧ on_receive_vto_event coordDoor now1 (doorEvent "Open")
        = .ok { coord := doorS1 now1,
                bus := [dictSet (doorEvent "Open") "DeviceName" (PyVal.vstr "Cam13")],
                invoked := ["DoorStatus-0"] }
    ∧ get_event_timestamp (doorS1 now1) "DoorStatus" = now1
    ∧ now1 ≠ 0
    ∧ on_receive_vto_event (doorS1 now1) now2 (doorEvent "Closed")
        = .ok { coord := doorS2 now1,
                bus := [dictSet (doorEvent "Closed") "DeviceName" (PyVal.vstr "Cam13")],
                invoked := ["DoorStatus-0"] }
    ∧ get_event_timestamp (doorS2 now1) "DoorStatus" = 0
    ∧ on_receive_vto_event (doorS2 now1) now3 (doorEvent "Open")
        = .ok { coord := doorS3 now1 now3,
                bus := [dictSet (doorEvent "Open") "DeviceName" (PyVal.vstr "Cam13")],
                invoked := ["DoorStatus-0"] }
    ∧ get_event_timestamp (doorS3 now1 now3) "DoorStatus" = now3
    ∧ now3 ≠ 0 :=
  ⟨on_receive_vto_doorEvent, rfl, rfl, by omega, rfl, rfl, rfl, rfl, by omega⟩

/-- Claim C7 witness: the amended round trip at concrete epochs. -/
theorem C7_witness :
    on_receive_vto_event (doorS2 1618148092) 1618148099 (doorEvent "Open")
      = .ok { coord := doorS3 1618148092 1618148099,
              bus := [dictSet (doorEvent "Open") "DeviceName" (PyVal.vstr "Cam13")],
              invoked := ["DoorStatus-0"] } :=
  (C7_door_status_roundtrip 1618148092 1618148095 1618148099
    (by decide) (by decide)).2.2.2.2.2.2.1

/-- Claim C8: `__init__` sets `channel_number = channel + 1`; the
first-refresh snapshot probe resets it to the channel index on success,
keeps the initial value on a `ClientError`, and in either case returns
normally (the catch swallows the probe failure, so it alone cannot fail
the refresh cycle). -/
theorem C8_channel_number_probe (ch : Int) (nm : Option String) :
    (coordInit ch nm).channel_number = ch + 1
    ∧ (∃ c2, snapshot_probe (coordInit ch nm) SnapshotResult.ok = .ok c2
          ∧ c2.channel_number = ch)
    ∧ snapshot_probe (coordInit ch nm) SnapshotResult.clientError = .ok (coordInit ch nm) :=
  ⟨rfl, ⟨{ coordInit ch nm with channel_number := ch }, rfl, rfl⟩, rfl⟩

/-- Claim C9: both receive paths preserve the timestamp-table invariant
(every stored value is `0` or an epoch at most the current time), and the
non-dispatch operations — listener registration and the snapshot probe —
leave the table untouched. -/
theorem C9_timestamp_table_invariant :
    (∀ (c : Coordinator) (now : Int) (input : String) (r : RecvState),
        on_receive c now input = .ok r →
        tableInv c.dahua_event_timestamp now →
        tableInv r.coord.dahua_event_timestamp now)
    ∧ (∀ (c : Coordinator) (now : Int) (ev : List (String × PyVal)) (r : RecvState),
        on_receive_vto_event c now ev = .ok r →
        tableInv c.dahua_event_timestamp now →
        tableInv r.coord.dahua_event_timestamp now)
    ∧ (∀ (c : Coordinator) (n : String),
        (add_dahua_event_listener c n).dahua_event_timestamp = c.dahua_event_timestamp)
    ∧ (∀ (c c2 : Coordinator) (sr : SnapshotResult),
        snapshot_probe c sr = .ok c2 → c2.dahua_event_timestamp = c.dahua_event_timestamp) := by
  refine ⟨fun c now input r hok h => on_receive_tableInv hok h,
          fun c now ev r hok h => on_receive_vto_tableInv hok h,
          fun c n => rfl, ?_⟩
  intro c c2 sr hok
  cases sr <;> (injection hok with h2; rw [← h2])

/-- Claim C9 witness: the invariant carried through a concrete doorbell
`Open` pulse starting from the empty table. -/
theorem C9_witness :
    tableInv (setTimestamp coordDoor "DoorStatus-0" 1618148092).dahua_event_timestamp
      1618148092 :=
  C9_timestamp_table_invariant.2.1 coordDoor 1618148092 (doorEvent "Open")
    { coord := setTimestamp coordDoor "DoorStatus-0" 1618148092,
      bus := [dictSet (doorEvent "Open") "DeviceName" (PyVal.vstr "Cam13")],
      invoked := ["DoorStatus-0"] }
    rfl (tableInv_nil 1618148092)

/-- Claim C10: `supports_siren` and `supports_security_light` are
extensionally equal — both are exactly the substring test
`"-AS-PV" in model`. -/
theorem C10_siren_eq_security_light (c : Coordinator) :
    supports_siren c = supports_security_light c
    ∧ supports_siren c = strContains c.model "-AS-PV" :=
  ⟨rfl, rfl⟩
